import Mathlib

/-
  Verification development for the rsync task-scheduling and execution engine.

  The definitions below are a shallow embedding of the JavaScript sources:
  * `src/config`        (timeouts/limits/paths object)       -> `Config`
  * `src/main/utils.js` (`escapeShellArg`, `executeCommand`,
    `isTaskStale`, `acquireLock`, `releaseLock`)             -> the `Utils` section
  * `src/main/executor.js` (current revision: `ensureRemoteDirs`,
    `syncWithRsync`, `syncWithSftp`, `executeSync` with its
    `writeLogAndState` finalization transaction)             -> the `Executor` section
  * `src/database/db.js` (`encryptPassword`, `decryptPassword`,
    the startup password migration)                          -> the `Db` section

  External effects (child processes, the remote host, wall clocks) are passed
  in explicitly: command results arrive through a `RunEnv` record, clock reads
  through `now` parameters, and the random IV/tag/ciphertext of AES-GCM through
  string parameters, so every definition is executable and the control flow is
  exactly the source's.
-/

namespace RsyncSpec

/-! ## Configuration (src/config, defaults of the `parseIntOrDefault` fields) -/

structure Config where
  maxLogs : Nat
  maxVersions : Nat
  maxConsecutiveFailures : Nat
  staleTaskThreshold : Nat
  maxOutputSize : Nat
  trashRetentionDays : Nat
  versionsDir : String
  trashDir : String
  detached : Bool
deriving DecidableEq

/-- The default configuration: the values taken when no overriding environment
variable is set (src/config).  `detached` is `config.process.detached`, the
spawn option `executeCommand` passes to `spawn`; the source sets it to
`false`. -/
def defaultConfig : Config :=
  { maxLogs := 100
    maxVersions := 10
    maxConsecutiveFailures := 3
    staleTaskThreshold := 86400
    maxOutputSize := 10240
    trashRetentionDays := 90
    versionsDir := ".versions"
    trashDir := ".trash"
    detached := false }

/-! ## Shell escaping (utils `escapeShellArg`, POSIX branch) -/

/-- The single-quote character. -/
def squote : Char := Char.ofNat 39

/-- The backslash character. -/
def bslash : Char := Char.ofNat 92

/-- Body of `escapeShellArg` on the character list: each single quote is
replaced by the four characters quote, backslash, quote, quote
(the JS `str.replace` of a quote with quote-backslash-quote-quote). -/
def escapeChars : List Char → List Char
  | [] => []
  | c :: cs => (if c = squote then [squote, bslash, squote, squote] else [c]) ++ escapeChars cs

/-- The `escapeShellArg` helper for a (non-null) string argument on POSIX: wrap in single
quotes, escaping each internal single quote. -/
def escapeShellArgStr (s : String) : String :=
  String.mk (squote :: (escapeChars s.data ++ [squote]))

/-- The `escapeShellArg` helper including the JS null/undefined branch, which returns two
single quotes. -/
def escapeShellArg : Option String → String
  | none => String.mk [squote, squote]
  | some s => escapeShellArgStr s

/-- A POSIX-shell word tokenizer over one word, used to state what the local
shell parses an escaped argument back to.  The `Bool` is the
inside-single-quotes state; outside quotes a backslash escapes the next
character, inside single quotes every character except the closing quote is
literal.  Returns `none` on an unterminated construct. -/
def shellParseAux : Bool → List Char → Option (List Char)
  | false, [] => some []
  | true, [] => none
  | false, c :: rest =>
    if c = squote then shellParseAux true rest
    else if c = bslash then
      match rest with
      | [] => none
      | d :: rest2 => (shellParseAux false rest2).map (d :: ·)
    else (shellParseAux false rest).map (c :: ·)
  | true, c :: rest =>
    if c = squote then shellParseAux false rest
    else (shellParseAux true rest).map (c :: ·)

/-- Parse one shell word starting outside quotes. -/
def shellParse (s : String) : Option String :=
  (shellParseAux false s.data).map String.mk

/-! ## Process runner (utils `executeCommand`) -/

/-- The resolution value of `executeCommand`.  Strings are modelled as
character lists. -/
structure CmdResult where
  code : Int
  stdout : List Char
  stderr : List Char
  output : List Char
  success : Bool
deriving DecidableEq

/-- The synthetic marker appended on timeout. -/
def timeoutMarker : List Char := ("\n[TIMEOUT]").data

/-- The `close` handler of `executeCommand`: `output` is stdout then stderr
truncated (JS `substring(0, maxOutputSize)`, i.e. the first
`maxOutputSize` characters); when the timeout fired (`killed`), the promise
resolves with code `-1`, failure, and `[TIMEOUT]`-suffixed stderr/output;
otherwise code `code || 0` and `success = (code === 0)`. -/
def closeResult (cfg : Config) (stdout stderr : List Char) (killed : Bool)
    (exitCode : Option Int) : CmdResult :=
  let output := (stdout ++ stderr).take cfg.maxOutputSize
  if killed then
    { code := -1
      stdout := stdout
      stderr := stderr ++ timeoutMarker
      output := output ++ timeoutMarker
      success := false }
  else
    { code := match exitCode with | none => 0 | some c => if c = 0 then 0 else c
      stdout := stdout
      stderr := stderr
      output := output
      success := exitCode = some 0 }

/-- The `error` handler of `executeCommand` (spawn failure): resolve — never
reject — with code `-1`, the error message as stderr and output. -/
def errorResult (stdout errMsg : List Char) : CmdResult :=
  { code := -1
    stdout := stdout
    stderr := errMsg
    output := errMsg
    success := false }

/-- The signal the timeout handler sends (`process.kill(-child.pid, 'SIGKILL')`). -/
def timeoutKillSignal : String := "SIGKILL"

/-- The kill argument of the timeout handler: the negated child pid, i.e. a
process-group id.  Whether any process group carries that id depends on the
spawn options — see `timeoutKillReachesChild`. -/
def timeoutKillTarget (pid : Int) : Int := -pid

/-- The spawn option `executeCommand` passes to `spawn`:
`detached: config.process.detached`. -/
def spawnDetached (cfg : Config) : Bool := cfg.detached

/-- Process-group bookkeeping of one spawned child: with `detached: true`
Node makes the child a session and process-group leader, so its group id is
its own pid; with `detached: false` the child stays in the parent's process
group. -/
def childPgid (detached : Bool) (parentPgid pid : Nat) : Nat :=
  if detached then pid else parentPgid

/-- Whether the timeout handler's `process.kill(-child.pid, 'SIGKILL')`
reaches the child: a negative argument signals the process group whose id is
the absolute value, and — the child's pid being freshly assigned, so no
pre-existing group carries it — such a group exists, and contains the child,
exactly when the child's own group id is `child.pid`.  When no such group
exists the kill throws ESRCH, which the handler's catch swallows after
having already set `killed = true`, so `closeResult` still sees
`killed = true` once the (unkilled) child eventually exits. -/
def timeoutKillReachesChild (detached : Bool) (parentPgid pid : Nat) : Bool :=
  childPgid detached parentPgid pid == pid

/-- Modelled from the spec: the "last ≤ MaxOutputBytes of combined
stdout+stderr" that §7 of the spec says the output column contains.  This is
the spec's wording, kept separate from `closeResult` (the code) so the two can
be compared. -/
def lastOutputSpec (n : Nat) (l : List Char) : List Char := l.drop (l.length - n)

/-! ## Data model (src/database/db.js schema) -/

/-- One `tasks` row.  SQLite integer flags stay `Nat` (JS truthiness is
`≠ 0`); nullable columns are `Option`. -/
structure Task where
  id : Nat
  name : String
  remote_host : String
  remote_port : Nat
  username : String
  password : String
  local_dir : String
  remote_dir : String
  interval_minutes : Nat
  version_enabled : Nat
  trash_enabled : Nat
  enabled : Nat
  is_running : Nat
  consecutive_failures : Option Nat
  last_sync_time : Option Nat
  last_sync_status : Option String
  started_at : Option Nat
deriving DecidableEq

/-- One `logs` row. -/
structure LogRow where
  id : Nat
  task_id : Nat
  timestamp : Nat
  status : String
  output : List Char
  duration : Nat
  sync_mode : String
deriving DecidableEq

/-- The database: the two relations plus the next autoincrement log id. -/
structure DB where
  tasks : List Task
  logs : List LogRow
  nextLogId : Nat
deriving DecidableEq

/-- The query `SELECT * FROM tasks WHERE id = ?`. -/
def findTask (db : DB) (taskId : Nat) : Option Task :=
  db.tasks.find? (fun t => t.id == taskId)

/-- Apply an update statement to the task row with the given id. -/
def updateTasks (db : DB) (taskId : Nat) (f : Task → Task) : DB :=
  { db with tasks := db.tasks.map (fun t => if t.id == taskId then f t else t) }

/-- Number of log rows of one task (`SELECT COUNT(*) FROM logs WHERE task_id = ?`). -/
def countLogs (logs : List LogRow) (taskId : Nat) : Nat :=
  (logs.filter (fun r => r.task_id == taskId)).length

/-! ## Locking (utils `isTaskStale`, `releaseLock`, `acquireLock`) -/

/-- The `isTaskStale` check: running, with a truthy `started_at`, started more than
`staleTaskThreshold` seconds ago. -/
def isTaskStale (cfg : Config) (t : Task) (now : Nat) : Bool :=
  t.is_running != 0 &&
    (match t.started_at with
     | none => false
     | some s => s != 0 && decide (now - s > cfg.staleTaskThreshold))

/-- The `releaseLock` statement `UPDATE tasks SET is_running = 0 WHERE id = ?`. -/
def releaseLock (db : DB) (taskId : Nat) : DB :=
  updateTasks db taskId (fun t => { t with is_running := 0 })

/-- The `takeLock` transaction of `acquireLock`: read the task (`none` when
absent, the JS throws there), clear a stale lock, then conditionally update
`is_running 0 → 1` and `started_at := now`; `locked = false` when the
conditional update changed no row.  The SQLITE_BUSY retry loop re-runs this
same transaction, so its non-contended semantics is this function. -/
def acquireLock (cfg : Config) (db : DB) (taskId now : Nat) :
    DB × Option Task × Bool :=
  match findTask db taskId with
  | none => (db, none, false)
  | some t =>
    let db1 := if isTaskStale cfg t now then releaseLock db taskId else db
    match findTask db1 taskId with
    | none => (db1, none, false)
    | some t1 =>
      if t1.is_running = 0 then
        let db2 := updateTasks db1 taskId
          (fun u => { u with is_running := 1, started_at := some now })
        (db2, findTask db2 taskId, true)
      else (db1, some t1, false)

/-! ## Command construction (executor.js, current revision) -/

/-- Resolved paths of the helper executables (`getCommandPath` results; they
depend on the host filesystem, so they are a parameter of the model). -/
structure ToolPaths where
  rsync : String
  ssh : String
  sshpass : String
  sftp : String
deriving DecidableEq

/-- On POSIX `convertWindowsPath` is the identity (the win32 branch rewrites
separators; the engine under verification runs the POSIX branch, as does
`escapeShellArg`). -/
def convertWindowsPath (s : String) : String := s

/-- JS `remoteDir.replace` of trailing slashes with the empty string. -/
def stripTrailingSlashes (s : String) : String :=
  String.mk ((s.data.reverse.dropWhile (fun c => c = '/')).reverse)

/-- The `ensureRemoteDirs` command: the one remote preparation command.  Note it creates
only `remote_dir` and the versions directory — no trash directory. -/
def ensureRemoteDirsCmd (cfg : Config) (remoteDir : String) : String :=
  "mkdir -p " ++ escapeShellArgStr remoteDir ++ " " ++
    escapeShellArgStr (remoteDir ++ "/" ++ cfg.versionsDir)

/-- The remote commands the current executor issues before spawning the
primary transfer: exactly the `ensureRemoteDirs` mkdir. -/
def preTransferRemoteCommands (cfg : Config) (task : Task) : List String :=
  [ensureRemoteDirsCmd cfg task.remote_dir]

/-- The rsync argument list built by `syncWithRsync`: the base flags plus,
when versioning or trash is enabled, `--backup` into the versions directory
of this run's timestamp. -/
def rsyncArgs (cfg : Config) (task : Task) (ts : String) : List String :=
  let remoteDir := stripTrailingSlashes task.remote_dir
  let backupDir := remoteDir ++ "/" ++ cfg.versionsDir ++ "/" ++ ts
  ["-avz", "--delete", "--force", "--exclude=" ++ cfg.versionsDir, "--progress"] ++
    (if task.version_enabled != 0 || task.trash_enabled != 0 then
      ["--backup", "--backup-dir=" ++ escapeShellArgStr backupDir]
    else [])

/-- The ssh command rsync is told to use as its remote shell. -/
def rshCmd (p : ToolPaths) (task : Task) : String :=
  p.ssh ++ " -p " ++ toString task.remote_port ++ " -o StrictHostKeyChecking=accept-new"

/-- The composite shell string `syncWithRsync` runs through `sh -c`. -/
def rsyncCmdStr (cfg : Config) (p : ToolPaths) (task : Task) (ts : String) : String :=
  "SSHPASS=" ++ escapeShellArgStr task.password ++ " " ++ p.sshpass ++ " -e " ++
    p.rsync ++ " " ++ String.intercalate " " (rsyncArgs cfg task ts) ++ " -e " ++
    escapeShellArgStr (rshCmd p task) ++ " " ++
    escapeShellArgStr (convertWindowsPath task.local_dir ++ "/") ++ " " ++
    task.username ++ "@" ++ task.remote_host ++ ":" ++
    escapeShellArgStr (stripTrailingSlashes task.remote_dir ++ "/") ++ " 2>&1"

/-- The sftp batch command of `syncWithSftp`. -/
def sftpBatchCmd (task : Task) : String :=
  "put -r " ++ escapeShellArgStr (convertWindowsPath task.local_dir) ++ "/* " ++
    escapeShellArgStr task.remote_dir ++ "/"

/-- The composite shell string `syncWithSftp` runs through `sh -c`. -/
def sftpCmdStr (p : ToolPaths) (task : Task) : String :=
  "echo " ++ escapeShellArgStr (sftpBatchCmd task) ++ " | SSHPASS=" ++
    escapeShellArgStr task.password ++ " " ++ p.sshpass ++ " -e " ++ p.sftp ++
    " -P " ++ toString task.remote_port ++
    " -o StrictHostKeyChecking=accept-new " ++ task.username ++ "@" ++ task.remote_host

/-- Posix `dirname` of a relative path: everything before the final slash,
`"."` when there is none. -/
def dirnameOf (s : String) : String :=
  if s.data.contains '/' then
    String.mk (((s.data.reverse.dropWhile (fun c => c ≠ '/')).drop 1).reverse)
  else "."

/-- Chunking worker: `acc` is the current chunk (reversed), `cnt` its
remaining capacity. -/
def chunksOfAux (n : Nat) (acc : List String) (cnt : Nat) :
    List String → List (List String)
  | [] => if acc.isEmpty then [] else [acc.reverse]
  | x :: xs =>
    if cnt ≤ 1 then (acc.reverse ++ [x]) :: chunksOfAux n [] n xs
    else chunksOfAux n (x :: acc) (cnt - 1) xs

/-- Split into chunks of `n` elements (the last chunk may be shorter). -/
def chunksOf (n : Nat) (l : List String) : List (List String) :=
  chunksOfAux n [] n l

/-- Modelled from the spec: the PreTrash step of §4.5 — absent from every
revision of the source.  For each extra remote file, the command
`mkdir -p <trash>/<dirname> && mv <remote_dir>/<path> <trash>/<path>` with
`<trash> = <remote_dir>/.trash/<timestamp>`, batched into groups of 100
joined by `&&`, each batch one remote command. -/
def specPreTrashBatches (remoteDir ts : String) (extras : List String) : List String :=
  let trash := remoteDir ++ "/.trash/" ++ ts
  let cmds := extras.map (fun pth =>
    "mkdir -p " ++ trash ++ "/" ++ dirnameOf pth ++ " && mv " ++
      remoteDir ++ "/" ++ pth ++ " " ++ trash ++ "/" ++ pth)
  (chunksOf 100 cmds).map (String.intercalate " && ")

/-! ## Run finalization (executor.js `writeLogAndState` transaction) -/

/-- Keep a list sorted by descending timestamp while inserting one row
(rows of equal timestamp keep insertion order; SQLite leaves that order
unspecified, the count properties below do not depend on it). -/
def insertByTsDesc (r : LogRow) : List LogRow → List LogRow
  | [] => [r]
  | x :: xs => if r.timestamp ≤ x.timestamp then x :: insertByTsDesc r xs else r :: x :: xs

/-- Sort log rows by descending timestamp (`ORDER BY timestamp DESC`). -/
def sortByTsDesc (l : List LogRow) : List LogRow :=
  l.foldl (fun acc r => insertByTsDesc r acc) []

/-- The ids the trim `DELETE` keeps: the `maxLogs` newest of the task's rows
by timestamp (`ORDER BY timestamp DESC LIMIT maxLogs`). -/
def trimKeepIds (cfg : Config) (logs : List LogRow) (taskId : Nat) : List Nat :=
  ((sortByTsDesc (logs.filter (fun r => r.task_id == taskId))).take cfg.maxLogs).map
    (fun r => r.id)

/-- The trim `DELETE`: remove the task's rows whose id is not among the
`maxLogs` newest by timestamp. -/
def trimLogs (cfg : Config) (logs : List LogRow) (taskId : Nat) : List LogRow :=
  logs.filter (fun r => r.task_id != taskId || (trimKeepIds cfg logs taskId).contains r.id)

/-- The status literal written for a run. -/
def statusOf (success : Bool) : String := if success then "success" else "fail"

/-- The task `UPDATE` of the finalization transaction: release the lock, stamp
the result, count failures with the SQL `CASE`/`COALESCE` arithmetic, and
auto-disable on reaching `maxConsecutiveFailures`. -/
def applyRunUpdate (cfg : Config) (t : Task) (now : Nat) (success : Bool) : Task :=
  let failed := !success
  { t with
    is_running := 0
    last_sync_time := some now
    last_sync_status := some (statusOf success)
    consecutive_failures :=
      some (if failed then t.consecutive_failures.getD 0 + 1 else 0)
    enabled :=
      if t.enabled = 1 ∧ failed = true ∧
          t.consecutive_failures.getD 0 + 1 ≥ cfg.maxConsecutiveFailures then 0
      else t.enabled }

/-- The whole `writeLogAndState` transaction: insert the log row, trim when the
count exceeds `maxLogs`, and update the task row — one atomic step. -/
def writeLogAndState (cfg : Config) (db : DB) (taskId now : Nat) (success : Bool)
    (output : List Char) (duration : Nat) (syncMode : String) : DB :=
  let row : LogRow :=
    { id := db.nextLogId, task_id := taskId, timestamp := now,
      status := statusOf success, output := output, duration := duration,
      sync_mode := syncMode }
  let logs1 := db.logs ++ [row]
  let logs2 := if countLogs logs1 taskId > cfg.maxLogs then trimLogs cfg logs1 taskId else logs1
  { tasks := db.tasks.map (fun t => if t.id == taskId then applyRunUpdate cfg t now success else t)
    logs := logs2
    nextLogId := db.nextLogId + 1 }

/-! ## The run pipeline (executor.js `executeSync`, current revision) -/

/-- The externally determined outcomes of one run: whether the remote mkdir
succeeded (with its output, used in the thrown message), and the resolution
values of the rsync and sftp child processes. -/
structure RunEnv where
  mkdirOk : Bool
  mkdirOutput : List Char
  rsyncResult : CmdResult
  sftpResult : CmdResult
deriving DecidableEq

/-- The exit-code-24 fixup of `syncWithRsync`: "some source files vanished" is
rewritten to code 0 / success before the result is returned. -/
def fixRsync24 (r : CmdResult) : CmdResult :=
  if r.code = 24 then { r with code := 0, success := true } else r

/-- The degradation warning line prefixed to the output when the run fell back
to sftp. -/
def sftpWarning : List Char :=
  ("[WARNING: Rsync failed, fell back to SFTP. No deletion/versioning performed.]\n").data

/-- The errors `executeSync` propagates to its caller. -/
inductive SyncErr
  | notFound
  | alreadyRunning
  | remotePrepFailed
deriving DecidableEq

/-- The `{success, output, syncMode}` value `executeSync` returns. -/
structure RunOutcome where
  success : Bool
  output : List Char
  syncMode : String
deriving DecidableEq

/-- The body of `executeSync` once the lock is held: the remote mkdir (whose
failure is rethrown after logging), the primary rsync with the code-24 fixup,
on primary failure the sftp fallback with the warning-prefixed output, and in
every case the `writeLogAndState` finalization of the `finally` clause. -/
def runLocked (cfg : Config) (env : RunEnv) (db0 : DB)
    (taskId now2 duration : Nat) : DB × Except SyncErr RunOutcome :=
  if env.mkdirOk = false then
    let out := ("Failed to create remote directories: ").data ++ env.mkdirOutput
    (writeLogAndState cfg db0 taskId now2 false out duration "rsync",
      .error .remotePrepFailed)
  else
    let rs := fixRsync24 env.rsyncResult
    if rs.success || rs.code == 0 then
      (writeLogAndState cfg db0 taskId now2 true rs.output duration "rsync",
        .ok { success := true, output := rs.output, syncMode := "rsync" })
    else
      let sf := env.sftpResult
      let out2 := sftpWarning ++ sf.output
      let ok2 := sf.success || sf.code == 0
      (writeLogAndState cfg db0 taskId now2 ok2 out2 duration "sftp",
        .ok { success := ok2, output := out2, syncMode := "sftp" })

/-- The `executeSync` pipeline end to end: acquire the lock (rejecting when missing or
already running — before any side effect), then `runLocked`.  `now` stamps the
lock, `now2` the log row, `duration` the measured wall time.  The returned
`DB` is the store after the call. -/
def executeSyncModel (cfg : Config) (env : RunEnv) (db : DB)
    (taskId now now2 duration : Nat) : DB × Except SyncErr RunOutcome :=
  match acquireLock cfg db taskId now with
  | (db0, none, _) => (db0, .error .notFound)
  | (db0, some _, locked) =>
    if locked = false then (db0, .error .alreadyRunning)
    else runLocked cfg env db0 taskId now2 duration

/-! ## Password encryption and migration (src/database/db.js) -/

/-- The JS test that a stored value starts with the version tag `v1:`. -/
def startsWithV1 (s : String) : Bool := "v1:".data.isPrefixOf s.data

/-- The ciphertext format of `encryptPassword` for a truthy plaintext: the
`v1:` version tag followed by the hex iv, auth tag and ciphertext.  The three
hex strings are parameters of the model (they come from `crypto`). -/
def encryptedFormat (ivHex tagHex dataHex : String) : String :=
  "v1:" ++ ivHex ++ ":" ++ tagHex ++ ":" ++ dataHex

/-- The `encryptPassword` function: a falsy input (null or the empty string) is returned
unchanged, otherwise the `v1:`-tagged ciphertext. -/
def encryptPassword (ivHex tagHex dataHex : String) : Option String → Option String
  | none => none
  | some s => if s = "" then some s else some (encryptedFormat ivHex tagHex dataHex)

/-- The `decryptPassword` function: a falsy or untagged stored value passes through
undecrypted; a `v1:` value goes to the AES-GCM decryption, which may throw
(the oracle `dec` stands for that call). -/
def decryptPassword (dec : String → Except String String) :
    Option String → Except String (Option String)
  | none => .ok none
  | some s =>
    if s = "" then .ok (some s)
    else if startsWithV1 s then (dec s).map some
    else .ok (some s)

/-- The startup migration of `init` step 3: every task row with a truthy,
untagged password is rewritten with `encryptPassword` (fresh randomness per
row, supplied by `enc`). -/
def migrateTaskPasswords (enc : String → String × String × String)
    (tasks : List Task) : List Task :=
  tasks.map (fun t =>
    if t.password != "" && !startsWithV1 t.password then
      { t with password :=
          (encryptPassword (enc t.password).1 (enc t.password).2.1 (enc t.password).2.2
            (some t.password)).getD t.password }
    else t)

/-- The claim that one string occurs inside another (on the underlying
character lists). -/
def strInfix (x s : String) : Prop := x.data <:+: s.data

instance (x s : String) : Decidable (strInfix x s) := by
  unfold strInfix; infer_instance

/-! ## Concrete inputs used by counterexamples and witnesses -/

/-- A captured stdout one character longer than the default output bound:
10240 copies of `a` followed by one `b`. -/
def c6Stdout : List Char := List.replicate 10240 'a' ++ ['b']

/-- A task whose username contains a space, used to exhibit the unescaped
interpolation of `username` into the composed sftp command. -/
def c9Task : Task :=
  { id := 1, name := "t", remote_host := "hostbox", remote_port := 22,
    username := "user name", password := "pw", local_dir := "/l",
    remote_dir := "/r", interval_minutes := 60, version_enabled := 0,
    trash_enabled := 0, enabled := 1, is_running := 0,
    consecutive_failures := some 0, last_sync_time := none,
    last_sync_status := none, started_at := none }

/-- Bare tool names as resolved paths, for concrete command evaluation. -/
def c9Paths : ToolPaths :=
  { rsync := "rsync", ssh := "ssh", sshpass := "sshpass", sftp := "sftp" }

/-- A trash-enabled task, for the trash-handling claim. -/
def c3Task : Task :=
  { id := 2, name := "backup", remote_host := "srv", remote_port := 22,
    username := "u", password := "p", local_dir := "/data",
    remote_dir := "/srv/data", interval_minutes := 60, version_enabled := 0,
    trash_enabled := 1, enabled := 1, is_running := 0,
    consecutive_failures := some 0, last_sync_time := none,
    last_sync_status := none, started_at := none }

/-- A currently running, non-stale task (locked five seconds ago). -/
def c2Task : Task :=
  { id := 1, name := "job", remote_host := "srv", remote_port := 22,
    username := "u", password := "p", local_dir := "/data",
    remote_dir := "/srv/data", interval_minutes := 60, version_enabled := 1,
    trash_enabled := 1, enabled := 1, is_running := 1,
    consecutive_failures := some 0, last_sync_time := none,
    last_sync_status := none, started_at := some 5 }

/-- A store holding only `c2Task`. -/
def c2Db : DB := { tasks := [c2Task], logs := [], nextLogId := 1 }

/-- An idle variant of `c2Task` (not running), and a store holding it. -/
def c5Task : Task := { c2Task with is_running := 0, started_at := none }

/-- A store holding only `c5Task`. -/
def c5Db : DB := { tasks := [c5Task], logs := [], nextLogId := 1 }

/-- A successful child-process result. -/
def cmdOk : CmdResult :=
  { code := 0, stdout := [], stderr := [], output := ("ok").data, success := true }

/-- A failed child-process result with rsync's partial-transfer code 23. -/
def cmdFail23 : CmdResult :=
  { code := 23, stdout := [], stderr := [], output := ("boom").data, success := false }

/-- A vanished-source-files rsync result (exit code 24). -/
def cmd24 : CmdResult :=
  { code := 24, stdout := [], stderr := [], output := ("vanished").data, success := false }

/-- Environment: mkdir fine, rsync exits 24, sftp would succeed. -/
def c4Env : RunEnv :=
  { mkdirOk := true, mkdirOutput := [], rsyncResult := cmd24, sftpResult := cmdOk }

/-- Environment: mkdir fine, rsync exits 23, sftp exits 0. -/
def c5Env : RunEnv :=
  { mkdirOk := true, mkdirOutput := [], rsyncResult := cmdFail23, sftpResult := cmdOk }

end RsyncSpec

namespace RsyncSpec

/-! # Theorems -/

theorem timeoutKill_misses_of_not_detached (parentPgid pid : Nat)
    (h : pid ≠ parentPgid) :
    timeoutKillReachesChild false parentPgid pid = false := by
  simp only [timeoutKillReachesChild, childPgid, if_neg (by simp : ¬False),
    Bool.false_eq_true, if_false]
  exact beq_eq_false_iff_ne.mpr (fun he => h he.symm)

/-- C7 (code bug): the resolution half of the claim holds — on timeout the
promise resolves, never rejects, with `code = -1`, `success = false`, and
stderr and output suffixed `[TIMEOUT]`, and a spawn error likewise resolves
with `code = -1`, `success = false`, and the error message as stderr — but
the kill half is false of the code: the handler runs
`process.kill(-child.pid, 'SIGKILL')`, yet the child is spawned with
`detached: false` (`config.process.detached`), so it stays in the parent's
process group; no group carries the fresh id `child.pid`, the kill dies as a
caught ESRCH, and no process is killed.  Evaluated at the failing input
(parent group 1, child pid 2): the shipped non-detached spawn reaches
nothing, while the detached spawn of the earlier revision ("Critical for
killing process group") would have reached the child's group.  The source's
own comment at the kill site, "Kill the whole process group", records the
intent the claim and the spec describe. -/
theorem C7_timeout_kill_and_resolution :
    spawnDetached defaultConfig = false ∧
    timeoutKillReachesChild (spawnDetached defaultConfig) 1 2 = false ∧
    timeoutKillReachesChild true 1 2 = true ∧
    (∀ (cfg : Config) (stdout stderr : List Char) (c : Option Int)
        (errMsg : List Char),
      (closeResult cfg stdout stderr true c).code = -1 ∧
      (closeResult cfg stdout stderr true c).success = false ∧
      timeoutMarker <:+ (closeResult cfg stdout stderr true c).stderr ∧
      timeoutMarker <:+ (closeResult cfg stdout stderr true c).output ∧
      (errorResult stdout errMsg).code = -1 ∧
      (errorResult stdout errMsg).success = false ∧
      (errorResult stdout errMsg).stderr = errMsg) := by
  refine ⟨rfl, timeoutKill_misses_of_not_detached 1 2 (by decide), rfl, ?_⟩
  intro cfg stdout stderr c errMsg
  simp [closeResult, errorResult, List.suffix_append]

/-- C6 (amended): the `output` field of a process result is the concatenation
of captured stdout then stderr truncated to its FIRST `maxOutputSize`
characters (a prefix of the combined stream, of length at most the bound),
plus the `[TIMEOUT]` marker when the timeout fired. -/
theorem C6_output_first_bytes (cfg : Config) (stdout stderr : List Char)
    (killed : Bool) (c : Option Int) :
    (closeResult cfg stdout stderr killed c).output =
      (stdout ++ stderr).take cfg.maxOutputSize ++
        (if killed then timeoutMarker else []) ∧
    (stdout ++ stderr).take cfg.maxOutputSize <+: (stdout ++ stderr) ∧
    ((stdout ++ stderr).take cfg.maxOutputSize).length ≤ cfg.maxOutputSize := by
  refine ⟨?_, ⟨(stdout ++ stderr).drop cfg.maxOutputSize, List.take_append_drop _ _⟩,
    List.length_take_le _ _⟩
  cases killed <;> simp [closeResult]

theorem closeResult_output_not_killed (cfg : Config) (stdout stderr : List Char)
    (c : Option Int) :
    (closeResult cfg stdout stderr false c).output =
      (stdout ++ stderr).take cfg.maxOutputSize := rfl

theorem take_replicate_append (n : Nat) (a b : Char) :
    (List.replicate n a ++ [b]).take n = List.replicate n a := by
  rw [List.take_append_eq_append_take, List.take_replicate, List.length_replicate,
    Nat.sub_self, Nat.min_self]
  simp

theorem lastOutputSpec_replicate_append (m : Nat) (a b : Char) :
    lastOutputSpec (m + 1) (List.replicate (m + 1) a ++ [b]) =
      List.replicate m a ++ [b] := by
  unfold lastOutputSpec
  rw [List.length_append, List.length_replicate, List.length_singleton,
    Nat.add_sub_cancel_left, List.replicate_succ, List.cons_append, List.drop_one,
    List.tail_cons]

/-- C6 (counterexample): the recorded output is NOT the last
`maxOutputSize` characters of the combined stream.  With stdout of 10240
copies of `a` followed by `b`, the code records the 10240 `a`s
(`substring(0, 10240)`), while the claimed last-10240 window ends in `b`. -/
theorem C6_counterexample :
    (closeResult defaultConfig c6Stdout [] false (some 0)).output ≠
      lastOutputSpec defaultConfig.maxOutputSize (c6Stdout ++ []) := by
  have hc : c6Stdout = List.replicate 10240 'a' ++ ['b'] := rfl
  have hm : defaultConfig.maxOutputSize = 10240 := rfl
  have h1 : (closeResult defaultConfig c6Stdout [] false (some 0)).output =
      List.replicate 10240 'a' := by
    rw [closeResult_output_not_killed, List.append_nil, hc, hm]
    exact take_replicate_append 10240 'a' 'b'
  have h2 : lastOutputSpec defaultConfig.maxOutputSize (c6Stdout ++ []) =
      List.replicate 10239 'a' ++ ['b'] := by
    rw [List.append_nil, hc, hm, show (10240 : Nat) = 10239 + 1 from by norm_num]
    exact lastOutputSpec_replicate_append 10239 'a' 'b'
  rw [h1, h2]
  intro h
  have hb : 'b' ∈ List.replicate 10239 'a' ++ ['b'] :=
    List.mem_append_right _ (List.mem_singleton_self 'b')
  rw [← h] at hb
  exact absurd (List.eq_of_mem_replicate hb) (by decide)

theorem startsWithV1_encryptedFormat (ivHex tagHex dataHex : String) :
    startsWithV1 (encryptedFormat ivHex tagHex dataHex) = true := by
  have : "v1:".data <+: (encryptedFormat ivHex tagHex dataHex).data := by
    simp only [encryptedFormat, String.data_append, List.append_assoc]
    exact ⟨_, rfl⟩
  simpa [startsWithV1] using this

/-- C10: `decryptPassword` returns its input unchanged whenever the stored
value is empty (or null) or does not start with the `v1:` tag;
`encryptPassword` returns an empty or null input unchanged; and after the
startup migration every stored task password is empty or `v1:`-tagged. -/
theorem C10_password_passthrough_and_migration :
    (∀ dec : String → Except String String,
      decryptPassword dec none = .ok none) ∧
    (∀ (dec : String → Except String String) (s : String),
      s = "" ∨ startsWithV1 s = false → decryptPassword dec (some s) = .ok (some s)) ∧
    (∀ ivHex tagHex dataHex : String,
      encryptPassword ivHex tagHex dataHex none = none ∧
      encryptPassword ivHex tagHex dataHex (some "") = some "") ∧
    (∀ (enc : String → String × String × String) (tasks : List Task) (t : Task),
      t ∈ migrateTaskPasswords enc tasks →
        t.password = "" ∨ startsWithV1 t.password = true) := by
  refine ⟨fun _ => rfl, ?_, fun _ _ _ => ⟨rfl, rfl⟩, ?_⟩
  · intro dec s h
    rcases h with h | h
    · subst h; rfl
    · by_cases hs : s = "" <;> simp [decryptPassword, hs, h]
  · intro enc tasks t ht
    simp only [migrateTaskPasswords, List.mem_map] at ht
    obtain ⟨u, _, rfl⟩ := ht
    by_cases hcond : (u.password != "" && !startsWithV1 u.password) = true
    · have hne : u.password ≠ "" := by
        have := (Bool.and_eq_true _ _).mp hcond
        exact bne_iff_ne.mp this.1
      rw [if_pos hcond]
      right
      simp only [encryptPassword, if_neg hne, Option.getD_some]
      exact startsWithV1_encryptedFormat _ _ _
    · rw [if_neg hcond]
      by_cases hp : u.password = ""
      · exact Or.inl hp
      · right
        by_cases hv : startsWithV1 u.password = true
        · exact hv
        · exact absurd (by simp [hp, hv]) hcond

theorem C10_witness :
    decryptPassword (fun s => Except.ok s) (some "hunter2") = .ok (some "hunter2") ∧
    encryptPassword "aa" "bb" "cc" none = none := by
  exact ⟨C10_password_passthrough_and_migration.2.1 (fun s => Except.ok s) "hunter2"
      (Or.inr (by decide)),
    (C10_password_passthrough_and_migration.2.2.1 "aa" "bb" "cc").1⟩

theorem shellParseAux_quote_true (l : List Char) :
    shellParseAux true (squote :: l) = shellParseAux false l := by
  rw [shellParseAux.eq_def]
  simp

theorem shellParseAux_quote_false (l : List Char) :
    shellParseAux false (squote :: l) = shellParseAux true l := by
  rw [shellParseAux.eq_def]
  simp

theorem shellParseAux_backslash_quote (l : List Char) :
    shellParseAux false (bslash :: squote :: l) =
      (shellParseAux false l).map (squote :: ·) := by
  have hbs : bslash ≠ squote := by decide
  rw [shellParseAux.eq_def]
  simp [hbs]

theorem shellParseAux_plain (c : Char) (l : List Char) (hc : c ≠ squote) :
    shellParseAux true (c :: l) = (shellParseAux true l).map (c :: ·) := by
  rw [shellParseAux.eq_def]
  simp [hc]

theorem shellParseAux_escapeChars (s tail : List Char) :
    shellParseAux true (escapeChars s ++ ([squote] ++ tail)) =
      (shellParseAux false tail).map (s ++ ·) := by
  induction s with
  | nil =>
    rw [show escapeChars [] = [] from rfl, List.nil_append, List.singleton_append,
      shellParseAux_quote_true]
    cases shellParseAux false tail <;> simp
  | cons c cs ih =>
    by_cases hc : c = squote
    · subst hc
      have he : escapeChars (squote :: cs) =
          squote :: bslash :: squote :: squote :: escapeChars cs := by
        simp [escapeChars]
      rw [he, List.cons_append, List.cons_append, List.cons_append, List.cons_append,
        shellParseAux_quote_true, shellParseAux_backslash_quote,
        shellParseAux_quote_false, ih]
      cases shellParseAux false tail <;> simp
    · have he : escapeChars (c :: cs) = c :: escapeChars cs := by
        simp [escapeChars, hc]
      rw [he, List.cons_append, shellParseAux_plain c _ hc, ih]
      cases shellParseAux false tail <;> simp

theorem shellParse_escapeShellArg (s : String) :
    shellParse (escapeShellArgStr s) = some s := by
  unfold shellParse escapeShellArgStr
  have h0 : (String.mk (squote :: (escapeChars s.data ++ [squote]))).data =
      squote :: (escapeChars s.data ++ [squote]) := rfl
  rw [h0]
  have h1 : shellParseAux false (squote :: (escapeChars s.data ++ [squote])) =
      shellParseAux true (escapeChars s.data ++ ([squote] ++ [])) := by
    rw [shellParseAux_quote_false]
    simp
  rw [h1, shellParseAux_escapeChars]
  simp only [shellParseAux, Option.map_some]
  cases s
  simp

theorem infix_extend_left {x m : List Char} (l : List Char) (h : x <:+: m) :
    x <:+: l ++ m := by
  obtain ⟨s, t, rfl⟩ := h
  exact ⟨l ++ s, t, by simp⟩

theorem infix_extend_right {x m : List Char} (r : List Char) (h : x <:+: m) :
    x <:+: m ++ r := by
  obtain ⟨s, t, rfl⟩ := h
  exact ⟨s, t ++ r, by simp⟩

/-- C9 (amended): on POSIX, `escapeShellArg` wraps its argument in single
quotes with each internal quote replaced by quote-backslash-quote-quote, and
the POSIX shell parses the escaped word back to the original string for every
input.  The password, local directory and remote directory are interpolated
into the composed rsync and sftp command strings only through this helper —
but `username` and `remote_host` are interpolated raw (see the
counterexample). -/
theorem C9_escaping (cfg : Config) (p : ToolPaths) (t : Task) (ts : String) :
    (∀ s : String, shellParse (escapeShellArgStr s) = some s) ∧
    (escapeShellArgStr t.password).data <:+: (rsyncCmdStr cfg p t ts).data ∧
    (escapeShellArgStr (convertWindowsPath t.local_dir ++ "/")).data <:+:
      (rsyncCmdStr cfg p t ts).data ∧
    (escapeShellArgStr (stripTrailingSlashes t.remote_dir ++ "/")).data <:+:
      (rsyncCmdStr cfg p t ts).data ∧
    (escapeShellArgStr t.password).data <:+: (sftpCmdStr p t).data ∧
    (escapeShellArgStr (convertWindowsPath t.local_dir)).data <:+:
      (sftpBatchCmd t).data ∧
    (escapeShellArgStr t.remote_dir).data <:+: (sftpBatchCmd t).data := by
  refine ⟨shellParse_escapeShellArg, ?_, ?_, ?_, ?_, ?_, ?_⟩ <;>
    simp only [rsyncCmdStr, sftpCmdStr, sftpBatchCmd, String.data_append]
  · iterate 17 apply infix_extend_right
    exact infix_extend_left _ (List.infix_refl _)
  · iterate 7 apply infix_extend_right
    exact infix_extend_left _ (List.infix_refl _)
  · iterate 1 apply infix_extend_right
    exact infix_extend_left _ (List.infix_refl _)
  · iterate 10 apply infix_extend_right
    exact infix_extend_left _ (List.infix_refl _)
  · iterate 3 apply infix_extend_right
    exact infix_extend_left _ (List.infix_refl _)
  · iterate 1 apply infix_extend_right
    exact infix_extend_left _ (List.infix_refl _)

/-- C9 (counterexample): the raw username appears in the composed sftp
command, and its shell-escaped form does not — the username does not pass
through the escaping helper (the same interpolation appears in the rsync
command). -/
theorem C9_counterexample :
    strInfix "user name" (sftpCmdStr c9Paths c9Task) ∧
    ¬ strInfix (escapeShellArgStr "user name") (sftpCmdStr c9Paths c9Task) ∧
    ¬ strInfix (escapeShellArgStr "user name") (rsyncCmdStr defaultConfig c9Paths c9Task "ts") ∧
    strInfix "user name" (rsyncCmdStr defaultConfig c9Paths c9Task "ts") := by
  set_option maxRecDepth 40000 in decide

theorem find?_map_update (l : List Task) (k : Nat) (g : Task → Task)
    (hg : ∀ u, (g u).id = u.id) :
    (l.map (fun u => if u.id == k then g u else u)).find? (fun u => u.id == k) =
      (l.find? (fun u => u.id == k)).map g := by
  induction l with
  | nil => rfl
  | cons x xs ih =>
    by_cases hx : (x.id == k) = true
    · have hhead : List.find? (fun u => u.id == k)
          (g x :: xs.map (fun u => if u.id == k then g u else u)) = some (g x) :=
        List.find?_cons_of_pos _ (by rw [hg]; exact hx)
      have hrhs : List.find? (fun u => u.id == k) (x :: xs) = some x :=
        List.find?_cons_of_pos _ hx
      rw [List.map_cons, if_pos hx, hhead, hrhs]
      rfl
    · have hhead : List.find? (fun u => u.id == k)
          (x :: xs.map (fun u => if u.id == k then g u else u)) =
          List.find? (fun u => u.id == k) (xs.map (fun u => if u.id == k then g u else u)) :=
        List.find?_cons_of_neg _ (by simpa using hx)
      have hrhs : List.find? (fun u => u.id == k) (x :: xs) =
          List.find? (fun u => u.id == k) xs :=
        List.find?_cons_of_neg _ (by simpa using hx)
      rw [List.map_cons, if_neg hx, hhead, hrhs, ih]

theorem findTask_updateTasks (db : DB) (k : Nat) (g : Task → Task)
    (hg : ∀ u, (g u).id = u.id) :
    findTask (updateTasks db k g) k = (findTask db k).map g := by
  unfold findTask updateTasks
  exact find?_map_update db.tasks k g hg

theorem isTaskStale_not_running (cfg : Config) (t : Task) (now : Nat)
    (h : t.is_running = 0) : isTaskStale cfg t now = false := by
  simp [isTaskStale, h]

theorem executeSyncModel_acquires (cfg : Config) (env : RunEnv) (db : DB)
    (taskId now now2 dur : Nat) (t : Task)
    (ht : findTask db taskId = some t) (hrun : t.is_running = 0) :
    executeSyncModel cfg env db taskId now now2 dur =
      runLocked cfg env
        (updateTasks db taskId (fun u => { u with is_running := 1, started_at := some now }))
        taskId now2 dur := by
  have hstale := isTaskStale_not_running cfg t now hrun
  have hfind := findTask_updateTasks db taskId
    (fun u => { u with is_running := 1, started_at := some now }) (fun _ => rfl)
  rw [ht] at hfind
  simp [executeSyncModel, acquireLock, ht, hstale, hrun, hfind]

/-- C2: invoking `executeSync` while the task's `is_running` lock is held and
not stale raises `AlreadyRunning` with no side effects: the returned store is
the input store unchanged — no log row inserted, no task field modified — so a
run already in flight for the task is unaffected and finishes normally. -/
theorem C2_already_running_no_side_effects (cfg : Config) (env : RunEnv)
    (db : DB) (taskId now now2 dur : Nat) (t : Task)
    (ht : findTask db taskId = some t) (hrun : t.is_running ≠ 0)
    (hstale : isTaskStale cfg t now = false) :
    executeSyncModel cfg env db taskId now now2 dur =
      (db, .error .alreadyRunning) := by
  simp [executeSyncModel, acquireLock, ht, hstale, hrun]

theorem C2_witness :
    findTask c2Db 1 = some c2Task ∧ c2Task.is_running ≠ 0 ∧
    isTaskStale defaultConfig c2Task 10 = false ∧
    executeSyncModel defaultConfig c5Env c2Db 1 10 11 0 =
      (c2Db, .error .alreadyRunning) :=
  ⟨by decide, by decide, by decide,
    C2_already_running_no_side_effects defaultConfig c5Env c2Db 1 10 11 0 c2Task
      (by decide) (by decide) (by decide)⟩

/-- C4: a primary rsync exit code of 24 is treated as success with
`sync_mode = "rsync"` and no fallback is attempted (the run is invariant
under any change of the sftp result), while any other non-zero rsync exit
code causes the sftp fallback to be attempted (the run's mode and output
become the fallback's). -/
theorem C4_exit24_success_no_fallback (cfg : Config) (env : RunEnv) (db : DB)
    (taskId now now2 dur : Nat) (t : Task)
    (ht : findTask db taskId = some t) (hrun : t.is_running = 0)
    (hmk : env.mkdirOk = true) :
    (env.rsyncResult.code = 24 →
      (executeSyncModel cfg env db taskId now now2 dur).2 =
        .ok { success := true, output := env.rsyncResult.output, syncMode := "rsync" } ∧
      ∀ sf : CmdResult,
        executeSyncModel cfg { env with sftpResult := sf } db taskId now now2 dur =
          executeSyncModel cfg env db taskId now now2 dur) ∧
    (env.rsyncResult.code ≠ 0 → env.rsyncResult.code ≠ 24 →
      env.rsyncResult.success = false →
      (executeSyncModel cfg env db taskId now now2 dur).2 =
        .ok { success := env.sftpResult.success || env.sftpResult.code == 0,
              output := sftpWarning ++ env.sftpResult.output,
              syncMode := "sftp" }) := by
  constructor
  · intro h24
    constructor
    · rw [executeSyncModel_acquires cfg env db taskId now now2 dur t ht hrun]
      simp [runLocked, hmk, fixRsync24, h24]
    · intro sf
      rw [executeSyncModel_acquires cfg _ db taskId now now2 dur t ht hrun,
        executeSyncModel_acquires cfg env db taskId now now2 dur t ht hrun]
      simp [runLocked, hmk, fixRsync24, h24]
  · intro hc0 hc24 hfail
    rw [executeSyncModel_acquires cfg env db taskId now now2 dur t ht hrun]
    have hcode : (env.rsyncResult.code == 0) = false := by
      simp [hc0]
    simp [runLocked, hmk, fixRsync24, hc24, hfail, hcode]

theorem C4_witness :
    findTask c5Db 1 = some c5Task ∧ c5Task.is_running = 0 ∧
    c4Env.mkdirOk = true ∧ c4Env.rsyncResult.code = 24 ∧
    (executeSyncModel defaultConfig c4Env c5Db 1 10 11 0).2 =
      .ok { success := true, output := c4Env.rsyncResult.output, syncMode := "rsync" } :=
  ⟨by decide, by decide, by decide, by decide,
    ((C4_exit24_success_no_fallback defaultConfig c4Env c5Db 1 10 11 0 c5Task
      (by decide) (by decide) (by decide)).1 (by decide)).1⟩

theorem countLogs_append_single (l : List LogRow) (r : LogRow) (T : Nat) :
    countLogs (l ++ [r]) T =
      countLogs l T + (if r.task_id == T then 1 else 0) := by
  simp only [countLogs, List.filter_append]
  by_cases hr : (r.task_id == T) = true <;>
    simp [List.filter, hr, List.length_append]

/-- C5: when the primary rsync failed and the sftp fallback exits 0, the run
is recorded as success with `sync_mode = "sftp"`, and the recorded output —
both the returned one and the inserted log row's — is prefixed with the
degradation warning line. -/
theorem C5_fallback_success (cfg : Config) (env : RunEnv) (db : DB)
    (taskId now now2 dur : Nat) (t : Task)
    (ht : findTask db taskId = some t) (hrun : t.is_running = 0)
    (hmk : env.mkdirOk = true)
    (hfail : env.rsyncResult.success = false)
    (hc0 : env.rsyncResult.code ≠ 0) (hc24 : env.rsyncResult.code ≠ 24)
    (hsftp : env.sftpResult.code = 0)
    (hcount : countLogs db.logs taskId < cfg.maxLogs) :
    (executeSyncModel cfg env db taskId now now2 dur).2 =
      .ok { success := true, output := sftpWarning ++ env.sftpResult.output,
            syncMode := "sftp" } ∧
    sftpWarning <+: sftpWarning ++ env.sftpResult.output ∧
    ({ id := db.nextLogId, task_id := taskId, timestamp := now2,
       status := "success", output := sftpWarning ++ env.sftpResult.output,
       duration := dur, sync_mode := "sftp" } : LogRow) ∈
      (executeSyncModel cfg env db taskId now now2 dur).1.logs := by
  rw [executeSyncModel_acquires cfg env db taskId now now2 dur t ht hrun]
  have hcode : (env.rsyncResult.code == 0) = false := by simp [hc0]
  have hok2 : (env.sftpResult.success || env.sftpResult.code == 0) = true := by
    simp [hsftp]
  refine ⟨?_, ⟨env.sftpResult.output, rfl⟩, ?_⟩
  · simp [runLocked, hmk, fixRsync24, hc24, hfail, hcode, hok2]
  · have hstep :
        (runLocked cfg env
          (updateTasks db taskId (fun u => { u with is_running := 1, started_at := some now }))
          taskId now2 dur).1 =
        writeLogAndState cfg
          (updateTasks db taskId (fun u => { u with is_running := 1, started_at := some now }))
          taskId now2 true (sftpWarning ++ env.sftpResult.output) dur "sftp" := by
      simp [runLocked, hmk, fixRsync24, hc24, hfail, hcode, hok2]
    rw [hstep]
    unfold writeLogAndState
    have hlogs : (updateTasks db taskId
        (fun u => { u with is_running := 1, started_at := some now })).logs = db.logs := rfl
    have hnext : (updateTasks db taskId
        (fun u => { u with is_running := 1, started_at := some now })).nextLogId =
        db.nextLogId := rfl
    simp only [hlogs, hnext]
    rw [if_neg]
    · exact List.mem_append_right _ (List.mem_singleton_self _)
    · rw [countLogs_append_single]
      simp only [beq_self_eq_true, if_pos]
      omega

theorem C5_witness :
    (executeSyncModel defaultConfig c5Env c5Db 1 10 11 0).2 =
      .ok { success := true, output := sftpWarning ++ c5Env.sftpResult.output,
            syncMode := "sftp" } ∧
    ({ id := c5Db.nextLogId, task_id := 1, timestamp := 11, status := "success",
       output := sftpWarning ++ c5Env.sftpResult.output, duration := 0,
       sync_mode := "sftp" } : LogRow) ∈
      (executeSyncModel defaultConfig c5Env c5Db 1 10 11 0).1.logs := by
  have h := C5_fallback_success defaultConfig c5Env c5Db 1 10 11 0 c5Task
    (by decide) (by decide) (by decide) (by decide) (by decide) (by decide)
    (by decide) (by decide)
  exact ⟨h.1, h.2.2⟩

/-- C3 (amended): for a run of a task with `trash_enabled`, no pre-transfer
trash step exists: the only remote command issued before the primary transfer
is the mkdir preparation, and the trash semantics is instead implemented by
passing `--backup --backup-dir=<remote_dir>/<versionsDir>/<timestamp>` to the
primary rsync, which preserves overwritten and deleted remote files under the
versions directory during the transfer itself. -/
theorem C3_trash_via_backup_dir (t : Task) (ts : String)
    (h : t.trash_enabled ≠ 0) :
    rsyncArgs defaultConfig t ts =
      ["-avz", "--delete", "--force", "--exclude=" ++ defaultConfig.versionsDir,
       "--progress", "--backup",
       "--backup-dir=" ++ escapeShellArgStr
         (stripTrailingSlashes t.remote_dir ++ "/" ++ defaultConfig.versionsDir ++ "/" ++ ts)] ∧
    preTransferRemoteCommands defaultConfig t =
      [ensureRemoteDirsCmd defaultConfig t.remote_dir] := by
  have hb : (t.version_enabled != 0 || t.trash_enabled != 0) = true := by
    simp [h]
  refine ⟨?_, rfl⟩
  simp [rsyncArgs, hb]

theorem C3_witness :
    c3Task.trash_enabled ≠ 0 ∧
    rsyncArgs defaultConfig c3Task "ts" =
      ["-avz", "--delete", "--force", "--exclude=" ++ defaultConfig.versionsDir,
       "--progress", "--backup",
       "--backup-dir=" ++ escapeShellArgStr
         (stripTrailingSlashes c3Task.remote_dir ++ "/" ++ defaultConfig.versionsDir ++ "/" ++ "ts")] :=
  ⟨by decide, (C3_trash_via_backup_dir c3Task "ts" (by decide)).1⟩

/-- C3 (counterexample): the claim fails on the code.  For the concrete
trash-enabled task, the only pre-transfer remote command is the mkdir and no
pre-transfer command mentions `mv` or `.trash` (nor does the rsync command),
while the spec's PreTrash step would issue a nonempty batch of `&&`-joined
`mkdir`/`mv` commands into `.trash` for a remote extra file. -/
theorem C3_counterexample :
    c3Task.trash_enabled ≠ 0 ∧
    preTransferRemoteCommands defaultConfig c3Task =
      [ensureRemoteDirsCmd defaultConfig c3Task.remote_dir] ∧
    (∀ c ∈ preTransferRemoteCommands defaultConfig c3Task,
      ¬ strInfix ".trash" c ∧ ¬ strInfix "mv " c) ∧
    ¬ strInfix ".trash" (rsyncCmdStr defaultConfig c9Paths c3Task "ts") ∧
    specPreTrashBatches c3Task.remote_dir "ts" ["old.txt"] ≠ [] ∧
    (∀ b ∈ specPreTrashBatches c3Task.remote_dir "ts" ["old.txt"],
      strInfix ".trash" b ∧ strInfix "mv " b) := by
  set_option maxRecDepth 40000 in decide

/-- C1: the finalization transaction (`writeLogAndState`, which also inserts
the run's log row and allocates its id) updates the task row so that
`is_running` becomes 0, `consecutive_failures` becomes 0 on success and the
prior value plus one on failure, and `enabled` flips from 1 to 0 exactly when
the run failed and the new failure count reaches
`maxConsecutiveFailures`; a task not enabled keeps its `enabled` value. -/
theorem C1_finalization_updates_task (cfg : Config) (db : DB) (taskId now : Nat)
    (success : Bool) (output : List Char) (dur : Nat) (mode : String) (t : Task)
    (ht : findTask db taskId = some t) :
    findTask (writeLogAndState cfg db taskId now success output dur mode) taskId =
      some (applyRunUpdate cfg t now success) ∧
    (applyRunUpdate cfg t now success).is_running = 0 ∧
    (applyRunUpdate cfg t now success).consecutive_failures =
      some (if success then 0 else t.consecutive_failures.getD 0 + 1) ∧
    (t.enabled = 1 →
      ((applyRunUpdate cfg t now success).enabled = 0 ↔
        (success = false ∧
          t.consecutive_failures.getD 0 + 1 ≥ cfg.maxConsecutiveFailures))) ∧
    (t.enabled ≠ 1 → (applyRunUpdate cfg t now success).enabled = t.enabled) ∧
    (writeLogAndState cfg db taskId now success output dur mode).nextLogId =
      db.nextLogId + 1 := by
  refine ⟨?_, rfl, ?_, ?_, ?_, rfl⟩
  · have h1 := find?_map_update db.tasks taskId
      (fun u => applyRunUpdate cfg u now success) (fun _ => rfl)
    unfold findTask at ht ⊢
    unfold writeLogAndState
    simp only []
    rw [h1, ht]
    rfl
  · cases success <;> rfl
  · intro he
    by_cases hs : success = true
    · simp [applyRunUpdate, hs, he]
    · have hs' : success = false := by
        cases success
        · rfl
        · exact absurd rfl hs
      by_cases hc : t.consecutive_failures.getD 0 + 1 ≥ cfg.maxConsecutiveFailures
      · simp [applyRunUpdate, hs', he, hc]
      · simp [applyRunUpdate, hs', he, hc]
  · intro he
    simp [applyRunUpdate, he]

theorem C1_witness :
    findTask c5Db 1 = some c5Task ∧
    findTask (writeLogAndState defaultConfig c5Db 1 11 false ("x").data 0 "rsync") 1 =
      some (applyRunUpdate defaultConfig c5Task 11 false) :=
  ⟨by decide,
    (C1_finalization_updates_task defaultConfig c5Db 1 11 false ("x").data 0 "rsync"
      c5Task (by decide)).1⟩

theorem length_filter_contains_le (l : List LogRow) (T : Nat) (ids : List Nat)
    (h : (l.map (fun r => r.id)).Nodup) :
    (l.filter (fun r => r.task_id == T && ids.contains r.id)).length ≤ ids.length := by
  have hsub : ((l.filter (fun r => r.task_id == T && ids.contains r.id)).map
      (fun r => r.id)).Sublist (l.map (fun r => r.id)) :=
    (List.filter_sublist l).map _
  have hnd := h.sublist hsub
  have hmem : ∀ x ∈ (l.filter (fun r => r.task_id == T && ids.contains r.id)).map
      (fun r => r.id), x ∈ ids := by
    intro x hx
    obtain ⟨r, hr, rfl⟩ := List.mem_map.mp hx
    have h2 := (List.mem_filter.mp hr).2
    have h3 := ((Bool.and_eq_true _ _).mp h2).2
    simpa using h3
  have hlen : (l.filter (fun r => r.task_id == T && ids.contains r.id)).length =
      ((l.filter (fun r => r.task_id == T && ids.contains r.id)).map
        (fun r => r.id)).length := (List.length_map _ _).symm
  rw [hlen, ← List.toFinset_card_of_nodup hnd]
  calc ((l.filter (fun r => r.task_id == T && ids.contains r.id)).map
        (fun r => r.id)).toFinset.card
      ≤ ids.toFinset.card :=
        Finset.card_le_card (fun x hx =>
          List.mem_toFinset.mpr (hmem x (List.mem_toFinset.mp hx)))
    _ ≤ ids.length := List.toFinset_card_le ids

theorem countLogs_trimLogs_le (cfg : Config) (logs : List LogRow) (T : Nat)
    (h : (logs.map (fun r => r.id)).Nodup) :
    countLogs (trimLogs cfg logs T) T ≤ cfg.maxLogs := by
  unfold countLogs trimLogs
  rw [List.filter_filter]
  have hcong : logs.filter
      (fun a => a.task_id == T && (a.task_id != T || (trimKeepIds cfg logs T).contains a.id)) =
      logs.filter (fun a => a.task_id == T && (trimKeepIds cfg logs T).contains a.id) :=
    List.filter_congr (fun a _ => by
      by_cases ha : (a.task_id == T) = true <;> simp [ha, bne])
  rw [hcong]
  refine le_trans (length_filter_contains_le logs T (trimKeepIds cfg logs T) h) ?_
  unfold trimKeepIds
  rw [List.length_map]
  exact List.length_take_le _ _

theorem count_after_insert_le (cfg : Config) (logs1 : List LogRow) (T : Nat)
    (h : (logs1.map (fun r => r.id)).Nodup) :
    countLogs (if countLogs logs1 T > cfg.maxLogs then trimLogs cfg logs1 T else logs1)
      T ≤ cfg.maxLogs := by
  by_cases hc : countLogs logs1 T > cfg.maxLogs
  · rw [if_pos hc]
    exact countLogs_trimLogs_le cfg logs1 T h
  · rw [if_neg hc]
    omega

/-- C8: immediately after any run's finalization, at most `maxLogs` log rows
exist for the task — the transaction inserts the run's row and, when the
count exceeds the cap, keeps only the `maxLogs` newest by timestamp — and
the same transaction releases the lock (`is_running = 0` on the task row).
Hypotheses: log ids are unique and the autoincrement id is fresh, the
invariants SQLite's `INTEGER PRIMARY KEY AUTOINCREMENT` maintains. -/
theorem C8_log_cap_and_lock_release (cfg : Config) (db : DB) (taskId now : Nat)
    (success : Bool) (output : List Char) (dur : Nat) (mode : String)
    (hnodup : (db.logs.map (fun r => r.id)).Nodup)
    (hfresh : ∀ r ∈ db.logs, r.id ≠ db.nextLogId) :
    countLogs (writeLogAndState cfg db taskId now success output dur mode).logs
      taskId ≤ cfg.maxLogs ∧
    ∀ u ∈ (writeLogAndState cfg db taskId now success output dur mode).tasks,
      u.id = taskId → u.is_running = 0 := by
  constructor
  · have hrow : ∀ x ∈ db.logs.map (fun r => r.id), x ≠ db.nextLogId := by
      intro x hx
      obtain ⟨r, hr, rfl⟩ := List.mem_map.mp hx
      exact hfresh r hr
    have hnodup1 : ((db.logs ++
        [({ id := db.nextLogId, task_id := taskId, timestamp := now,
            status := statusOf success, output := output, duration := dur,
            sync_mode := mode } : LogRow)]).map (fun r => r.id)).Nodup := by
      rw [List.map_append]
      exact ((List.perm_append_singleton _ _).nodup_iff).mpr
        (List.nodup_cons.mpr ⟨fun hmem => hrow _ hmem rfl, hnodup⟩)
    exact count_after_insert_le cfg _ taskId hnodup1
  · intro u hu huid
    simp only [writeLogAndState] at hu
    obtain ⟨v, _, rfl⟩ := List.mem_map.mp hu
    by_cases hvid : (v.id == taskId) = true
    · rw [if_pos hvid]
      rfl
    · rw [if_neg hvid] at huid
      exact absurd (beq_iff_eq.mpr huid) hvid

theorem C8_witness :
    countLogs (writeLogAndState defaultConfig c5Db 1 11 true [] 0 "rsync").logs 1 ≤
      defaultConfig.maxLogs ∧
    ∀ u ∈ (writeLogAndState defaultConfig c5Db 1 11 true [] 0 "rsync").tasks,
      u.id = 1 → u.is_running = 0 :=
  C8_log_cap_and_lock_release defaultConfig c5Db 1 11 true [] 0 "rsync"
    (by decide) (by decide)

end RsyncSpec
